import Mathlib

/-!
# Token verification and issuance of the gateway (`gateway/utils/jwt/operations.go`)

A shallow embedding of `JWT.ParseToken` and `JWT.CreateToken`.

* Go maps (`map[string]V`) are association lists read through `GoMap.get`; the order of the
  list carries no meaning. A `range` over the secrets visits them in an order that Go leaves
  unspecified: it is an argument of its own (`RangeOrder`), any rearrangement of the entries.
* The functions the two operations call but do not define (the token library's
  `ParseUnverified`, `ParseRSAPrivateKeyFromPEM`, `SignedString`, and the methods
  `parseJwkSecret`, `verifyTokenSignature`) are fields of `Env`.
* Both operations return, next to their result, the list of calls they made to the
  resolver, the verifier, the PEM parser and the signer, in program order.
* Where a claim rests on code outside this file, the structural parse (`ParseUnverified`) and
  the signature engine (`specEnv`) are modelled from the specification.
-/

set_option linter.dupNamespace false

namespace Jwt

/-! ## Data model -/

/-- JSON-compatible value: what a decoded header field or a claim holds. -/
inductive Value where
  | null
  | bool (b : Bool)
  | num (n : Int)
  | str (s : String)
  | arr (items : List Value)
  | obj (fields : List (String × Value))

/-- Go `map[string]V`, as the list of its entries. -/
abbrev GoMap (β : Type) := List (String × β)

/-- Go `v, ok := m[k]`. -/
def GoMap.get {β : Type} : GoMap β → String → Option β
  | [], _ => none
  | (k', v) :: rest, k => if k' = k then some v else GoMap.get rest k

/-- Go `m[k] = v`. -/
def GoMap.set {β : Type} : GoMap β → String → β → GoMap β
  | [], k, v => [(k, v)]
  | (k', v') :: rest, k, v => if k' = k then (k, v) :: rest else (k', v') :: GoMap.set rest k v

/-- An order in which one `range` statement may visit the entries of the map `m`. Go does not
specify the order and does not keep it from one `range` to the next, so every rearrangement
of the entries is one. -/
structure RangeOrder {β : Type} (m : GoMap β) where
  entries : GoMap β
  perm : entries.Perm m

/-- The order in which the model lists the entries. -/
def RangeOrder.listed {β : Type} (m : GoMap β) : RangeOrder m :=
  { entries := m, perm := List.Perm.refl m }

/-- Claim set (`jwt.MapClaims`, `model.TokenClaims`, `map[string]interface{}`). -/
abbrev Claims := GoMap Value

/-- Modelled from the spec: the algorithm tags of `config.Secret.Alg` (the constants
`config.HS256`, `config.RS256`, `config.RS256Public` are declared outside this file):
unset (the empty tag), symmetric-HS256, asymmetric-RS256, asymmetric-RS256-public-only,
and any other tag. -/
inductive JWTAlg where
  | unset
  | HS256
  | RS256
  | RS256Public
  | other (tag : String)
  deriving DecidableEq, Repr

/-- The fields of `config.Secret` the two operations read or hand on. -/
structure Secret where
  IsPrimary : Bool
  Alg : JWTAlg
  KID : String
  Secret : String
  PublicKey : String
  PrivateKey : String
  deriving DecidableEq, Repr

/-- The receiver `j *JWT`: its static secrets, a Go map keyed by string. -/
structure JWT where
  staticSecrets : GoMap Secret

/-- Signing methods of the token library used by `CreateToken`. -/
inductive SigningMethod where
  | HS256
  | RS256
  deriving DecidableEq, Repr

/-- Parsed RSA private key (`*rsa.PrivateKey`), as returned by the PEM parser. -/
structure RSAPrivateKey where
  der : String
  deriving DecidableEq, Repr

/-- Key argument of `SignedString`: raw bytes or a parsed RSA private key. -/
inductive SignKey where
  | bytes (secret : String)
  | rsa (key : RSAPrivateKey)
  deriving DecidableEq, Repr

/-- Errors the two operations return, by the place they come from. -/
inductive Error where
  /-- line 24: the structural parse failed -/
  | malformedToken
  /-- line 46: no static secret under the token's kid -/
  | unknownKeyIdentifier
  /-- line 64: no static secret verified the token -/
  | noMatchingSecret
  /-- line 88: the error of the PEM parser, returned as it is -/
  | invalidPrivateKey (cause : String)
  /-- lines 92 and 100: the error of `SignedString`, returned as it is -/
  | signingFailed (cause : String)
  /-- line 104: the primary secret's algorithm cannot sign -/
  | unsupportedAlgorithm (alg : JWTAlg)
  /-- line 108: no secret is marked primary -/
  | noPrimarySecret
  /-- failure reported by `parseJwkSecret` -/
  | keySetResolutionFailed
  /-- any other failure reported by `verifyTokenSignature` -/
  | engine (cause : String)
  deriving DecidableEq, Repr

/-- What `ParseUnverified` yields that `ParseToken` reads: the decoded header. -/
structure ParsedToken where
  Header : GoMap Value

/-- Calls made to the collaborators, with their arguments. -/
inductive Call where
  | parseJwkSecret (kid : String) (token : String)
  | verifyTokenSignature (token : String) (secret : Secret)
  | parseRSAPrivateKeyFromPEM (pem : String)
  | signedString (method : SigningMethod) (kid : String) (claims : Claims) (key : SignKey)

/-- The functions called by `ParseToken` and `CreateToken` that this file does not define. -/
structure Env where
  /-- Library call `jwt.Parser.ParseUnverified(token, jwt.MapClaims)`. -/
  parseUnverified : String → Except String ParsedToken
  /-- Method `j.parseJwkSecret(ctx, kid, token)`, the key-set resolver. -/
  parseJwkSecret : String → String → Except Error Claims
  /-- Method `j.verifyTokenSignature(ctx, token, secret)`. -/
  verifyTokenSignature : String → Secret → Except Error Claims
  /-- Library call `jwt.ParseRSAPrivateKeyFromPEM(pem)`. -/
  parseRSAPrivateKeyFromPEM : String → Except String RSAPrivateKey
  /-- Library calls `jwt.NewWithClaims(method, claims)` and `SignedString(key)` on the token
  whose header got `kid` under "kid" in between. -/
  signedString : SigningMethod → String → Claims → SignKey → Except String String

/-- Result of `ParseToken`: `(claims, nil)`, `(nil, err)`, or a run-time panic. -/
inductive Outcome where
  | ok (claims : Claims)
  | error (err : Error)
  | runtimePanic

/-! ## ParseToken -/

/-- Lines 49-64: the `range` over the static secrets for a token without kid, given the
secrets in the order the `range` visits them. -/
def ParseToken_range (env : Env) (token : String) : GoMap Secret → Outcome × List Call
  | [] => (.error .noMatchingSecret, [])
  | (_, secret) :: rest =>
    let tempSecret : Secret :=
      match secret.Alg with
      | .unset => { secret with Alg := .HS256 }
      | .RS256Public => { secret with Alg := .RS256 }
      | _ => secret
    match env.verifyTokenSignature token tempSecret with
    | .ok claims => (.ok claims, [.verifyTokenSignature token tempSecret])
    | .error _ =>
      let r := ParseToken_range env token rest
      (r.1, .verifyTokenSignature token tempSecret :: r.2)

/-- Method `JWT.ParseToken` (lines 17-65); `order` is the order in which the `range` of
line 49 visits the static secrets in this call. -/
def ParseToken (env : Env) (j : JWT) (order : RangeOrder j.staticSecrets) (token : String) :
    Outcome × List Call :=
  match env.parseUnverified token with
  | .error _ => (.error .malformedToken, [])
  | .ok parsedToken =>
    match parsedToken.Header.get "kid" with
    | some kid =>
      -- `kid.(string)`: a type assertion without the comma-ok form
      match kid with
      | .str k =>
        match env.parseJwkSecret k token with
        | .ok claims => (.ok claims, [.parseJwkSecret k token])
        | .error _ =>
          match j.staticSecrets.get k with
          | some obj =>
            let tempSecret : Secret :=
              match obj.Alg with
              | .unset => { obj with Alg := .HS256 }
              | .RS256Public => { obj with Alg := .RS256 }
              | _ => obj
            match env.verifyTokenSignature token tempSecret with
            | .ok claims =>
              (.ok claims, [.parseJwkSecret k token, .verifyTokenSignature token tempSecret])
            | .error e =>
              (.error e, [.parseJwkSecret k token, .verifyTokenSignature token tempSecret])
          | none => (.error .unknownKeyIdentifier, [.parseJwkSecret k token])
      | _ => (.runtimePanic, [])
    | none => ParseToken_range env token order.entries

/-! ## CreateToken -/

/-- Nanoseconds in `time.Hour`. -/
def Hour : Int := 3600 * 1000000000

/-- Value of `time.Now().Add(d).Unix()` for a clock reading `now` (nanoseconds since the
epoch) and a duration `d` in nanoseconds. -/
def unixAfter (now d : Int) : Int := (now + d) / 1000000000

/-- Lines 80-108: the `range` over the static secrets looking for the primary one, given the
secrets in the order the `range` visits them. -/
def CreateToken_range (env : Env) (claims : Claims) :
    GoMap Secret → (String × Option Error) × List Call
  | [] => (("", some .noPrimarySecret), [])
  | (_, s) :: rest =>
    if s.IsPrimary then
      match s.Alg with
      | .RS256 =>
        match env.parseRSAPrivateKeyFromPEM s.PrivateKey with
        | .error e =>
          (("", some (.invalidPrivateKey e)), [.parseRSAPrivateKeyFromPEM s.PrivateKey])
        | .ok signKey =>
          match env.signedString .RS256 s.KID claims (.rsa signKey) with
          | .error e =>
            (("", some (.signingFailed e)),
              [.parseRSAPrivateKeyFromPEM s.PrivateKey,
               .signedString .RS256 s.KID claims (.rsa signKey)])
          | .ok tokenString =>
            ((tokenString, none),
              [.parseRSAPrivateKeyFromPEM s.PrivateKey,
               .signedString .RS256 s.KID claims (.rsa signKey)])
      | .HS256 | .unset =>
        match env.signedString .HS256 s.KID claims (.bytes s.Secret) with
        | .error e =>
          (("", some (.signingFailed e)), [.signedString .HS256 s.KID claims (.bytes s.Secret)])
        | .ok tokenString =>
          ((tokenString, none), [.signedString .HS256 s.KID claims (.bytes s.Secret)])
      | _ => (("", some (.unsupportedAlgorithm s.Alg)), [])
    else CreateToken_range env claims rest

/-- Lines 72-79: the claim set that is signed. -/
def CreateToken_claims (tokenClaims : Claims) (now : Int) : Claims :=
  let claims : Claims := tokenClaims.foldl (fun m kv => GoMap.set m kv.1 kv.2) []
  GoMap.set claims "exp" (.num (unixAfter now (24 * 7 * Hour)))

/-- Method `JWT.CreateToken` (lines 68-109); `order` is the order in which the `range` of
line 80 visits the static secrets in this call, `now` is the reading of `time.Now()`. -/
def CreateToken (env : Env) (j : JWT) (order : RangeOrder j.staticSecrets)
    (tokenClaims : Claims) (now : Int) : (String × Option Error) × List Call :=
  CreateToken_range env (CreateToken_claims tokenClaims now) order.entries

/-! ## The normalised secret of the specification -/

/-- Stated from the specification (data model, NormalizedSecret): the view of a secret handed
to the signature engine, with the tags unset and asymmetric-RS256-public-only rewritten to
symmetric-HS256 and asymmetric-RS256, and nothing else changed. -/
def NormalizedSecret (s : Secret) : Secret :=
  { IsPrimary := s.IsPrimary
    Alg := match s.Alg with
      | .unset => .HS256
      | .RS256Public => .RS256
      | a => a
    KID := s.KID
    Secret := s.Secret
    PublicKey := s.PublicKey
    PrivateKey := s.PrivateKey }

/-! ## The structural parse -/

/-- Splits a string at every dot, as `strings.Split(s, ".")` does. -/
def splitDots : List Char → List (List Char)
  | [] => [[]]
  | c :: cs =>
    if c = '.' then [] :: splitDots cs
    else
      match splitDots cs with
      | [] => [[c]]
      | seg :: segs => (c :: seg) :: segs

/-- The dot-separated segments of a token. -/
def segments (token : String) : List String :=
  (splitDots token.data).map String.mk

/-- Modelled from the spec: SecretStore, whose code is not in this file (only reads of
`staticSecrets` are): every secret is stored under its own kid, a later secret replacing an
earlier one with the same kid. -/
def storeOf (secrets : List Secret) : JWT :=
  { staticSecrets := secrets.foldl (fun m s => GoMap.set m s.KID s) [] }

/-- Modelled from the spec: what SignatureEngine wraps and does not define, namely the encoding
of a header or claim set into a token segment (JSON, then base64url) with its decoding, and
the two cryptographic primitives HMAC-SHA256 and RSA-SHA256, whose results are signature
segments (base64url). -/
structure Primitives where
  encodeObject : GoMap Value → String
  decodeObject : String → Option (GoMap Value)
  hmacSHA256 : String → String → String
  rsaSHA256 : RSAPrivateKey → String → String
  rsaSHA256Verify : String → String → String → Bool

/-- Modelled from the spec: SignatureEngine.verify, for `verifyTokenSignature`, which is not in
this file. It supports HMAC-SHA256 over the shared secret and RSA-SHA256 over the public key,
recomputes the signature over header and payload and compares it with the token's third
segment; any other algorithm tag fails with UnsupportedAlgorithm. -/
def specVerifyTokenSignature (prims : Primitives) (token : String) (secret : Secret) :
    Except Error Claims :=
  match segments token with
  | [header, payload, signature] =>
    match prims.decodeObject payload with
    | none => .error .malformedToken
    | some claims =>
      match secret.Alg with
      | .HS256 =>
        if prims.hmacSHA256 secret.Secret (header ++ "." ++ payload) = signature then
          .ok claims
        else
          .error (.engine "signature is invalid")
      | .RS256 =>
        if prims.rsaSHA256Verify secret.PublicKey (header ++ "." ++ payload) signature
            = true then
          .ok claims
        else
          .error (.engine "signature is invalid")
      | a => .error (.unsupportedAlgorithm a)
  | _ => .error .malformedToken

/-- A number in unary: as many `u` as the number, closed by `z`. -/
def encNat : Nat → List Char
  | 0 => ['z']
  | n + 1 => 'u' :: encNat n

/-- Reads a number written by `encNat` and returns it with the unread rest. -/
def decNat : List Char → Option (Nat × List Char)
  | [] => none
  | c :: rest =>
    if c = 'z' then some (0, rest)
    else if c = 'u' then
      match decNat rest with
      | some (n, r) => some (n + 1, r)
      | none => none
    else none

/-- A string: every character as `c` and its code point, closed by `e`. -/
def encStr : List Char → List Char
  | [] => ['e']
  | c :: cs => 'c' :: (encNat c.toNat ++ encStr cs)

/-- Reads a string written by `encStr`. -/
def decStr : Nat → List Char → Option (List Char × List Char)
  | 0, _ => none
  | _ + 1, [] => none
  | fuel + 1, c :: rest =>
    if c = 'e' then some ([], rest)
    else if c = 'c' then
      match decNat rest with
      | some (n, r) =>
        match decStr fuel r with
        | some (cs, r') => some (Char.ofNat n :: cs, r')
        | none => none
      | none => none
    else none

mutual
/-- A value: one letter for its kind, then its content. -/
def encValue : Value → List Char
  | .null => ['n']
  | .bool true => ['t']
  | .bool false => ['f']
  | .num (Int.ofNat n) => 'p' :: encNat n
  | .num (Int.negSucc n) => 'm' :: encNat n
  | .str s => 's' :: encStr s.data
  | .arr items => 'a' :: encItems items
  | .obj fields => 'o' :: encFields fields
/-- A list of values: every item after `c`, closed by `e`. -/
def encItems : List Value → List Char
  | [] => ['e']
  | v :: vs => 'c' :: (encValue v ++ encItems vs)
/-- A list of fields: every key and value after `c`, closed by `e`. -/
def encFields : List (String × Value) → List Char
  | [] => ['e']
  | (k, v) :: fs => 'c' :: (encStr k.data ++ (encValue v ++ encFields fs))
end

mutual
/-- Reads a value written by `encValue`. -/
def decValue : Nat → List Char → Option (Value × List Char)
  | 0, _ => none
  | _ + 1, [] => none
  | fuel + 1, c :: rest =>
    if c = 'n' then some (.null, rest)
    else if c = 't' then some (.bool true, rest)
    else if c = 'f' then some (.bool false, rest)
    else if c = 'p' then
      match decNat rest with
      | some (n, r) => some (.num (Int.ofNat n), r)
      | none => none
    else if c = 'm' then
      match decNat rest with
      | some (n, r) => some (.num (Int.negSucc n), r)
      | none => none
    else if c = 's' then
      match decStr fuel rest with
      | some (cs, r) => some (.str (String.mk cs), r)
      | none => none
    else if c = 'a' then
      match decItems fuel rest with
      | some (items, r) => some (.arr items, r)
      | none => none
    else if c = 'o' then
      match decFields fuel rest with
      | some (fields, r) => some (.obj fields, r)
      | none => none
    else none
/-- Reads a list of values written by `encItems`. -/
def decItems : Nat → List Char → Option (List Value × List Char)
  | 0, _ => none
  | _ + 1, [] => none
  | fuel + 1, c :: rest =>
    if c = 'e' then some ([], rest)
    else if c = 'c' then
      match decValue fuel rest with
      | some (v, r) =>
        match decItems fuel r with
        | some (vs, r') => some (v :: vs, r')
        | none => none
      | none => none
    else none
/-- Reads a list of fields written by `encFields`. -/
def decFields : Nat → List Char → Option (List (String × Value) × List Char)
  | 0, _ => none
  | _ + 1, [] => none
  | fuel + 1, c :: rest =>
    if c = 'e' then some ([], rest)
    else if c = 'c' then
      match decStr fuel rest with
      | some (k, r) =>
        match decValue fuel r with
        | some (v, r') =>
          match decFields fuel r' with
          | some (fs, r'') => some ((String.mk k, v) :: fs, r'')
          | none => none
        | none => none
      | none => none
    else none
end

/-- A secret with the given kid, algorithm, shared secret and primary flag. -/
def exampleSecret (kid : String) (alg : JWTAlg) (secret : String) (primary : Bool) : Secret :=
  { IsPrimary := primary, Alg := alg, KID := kid, Secret := secret,
    PublicKey := "", PrivateKey := "PEM" }

/-- Token with header alg HS256, typ JWT and no kid. -/
def tokenNoKid : String := "eyJhbGciOiJIUzI1NiIsInR5cCI6IkpXVCJ9.e30.c2ln"

/-- Token with header alg HS256, kid "k1", typ JWT. -/
def tokenKid : String := "eyJhbGciOiJIUzI1NiIsImtpZCI6ImsxIiwidHlwIjoiSldUIn0.e30.c2ln"

/-- Token whose header is the JSON object with alg "HS256" and kid the number 7. -/
def tokenNumericKid : String := "eyJhbGciOiJIUzI1NiIsImtpZCI6N30.e30.c2ln"

/-- Collaborators for the concrete inputs: the structural parse decodes the three tokens above
and rejects every other string, the resolver knows no kid, verification accepts exactly the
HS256 secret "s3cret" and answers with the kid of the accepting secret, the PEM parser accepts
"PEM", signing answers with the kid it was given. -/
def exampleEnv : Env :=
  { parseUnverified := fun t =>
      if t = tokenNoKid then .ok { Header := [("alg", .str "HS256"), ("typ", .str "JWT")] }
      else if t = tokenKid then
        .ok { Header := [("alg", .str "HS256"), ("kid", .str "k1"), ("typ", .str "JWT")] }
      else if t = tokenNumericKid then
        .ok { Header := [("alg", .str "HS256"), ("kid", .num 7)] }
      else .error "token contains an invalid number of segments"
    parseJwkSecret := fun _ _ => .error .keySetResolutionFailed
    verifyTokenSignature := fun _ s =>
      if s.Alg = .HS256 ∧ s.Secret = "s3cret" then .ok [("sub", .str s.KID)]
      else .error (.engine "signature is invalid")
    parseRSAPrivateKeyFromPEM := fun pem =>
      if pem = "PEM" then .ok { der := "DER" } else .error "Invalid Key"
    signedString := fun _ kid _ _ => .ok ("signed:" ++ kid) }

/-- The collaborators above with a resolver that resolves the kid "k1". -/
def exampleEnvResolving : Env :=
  { exampleEnv with
    parseJwkSecret := fun k _ =>
      if k = "k1" then .ok [("sub", .str "remote")] else .error .keySetResolutionFailed }

/-- The collaborators above with a signer that fails. -/
def exampleEnvSignerFails : Env :=
  { exampleEnv with
    signedString := fun _ _ _ _ => .error "crypto/rsa: message too long for RSA key size" }

/-- A store of three secrets: "a" does not verify, "b" and "c" do. -/
def exampleStore : JWT :=
  storeOf [exampleSecret "a" .unset "other" false,
           exampleSecret "b" .unset "s3cret" false,
           exampleSecret "c" .HS256 "s3cret" true]

/-- A store with two primary secrets. -/
def exampleTwoPrimaries : JWT :=
  storeOf [exampleSecret "a" .HS256 "x" true, exampleSecret "b" .HS256 "y" true]

/-- A `range` over the store with two primary secrets that visits "b" first. -/
def exampleOrderBA : RangeOrder exampleTwoPrimaries.staticSecrets :=
  { entries := [("b", exampleSecret "b" .HS256 "y" true),
                ("a", exampleSecret "a" .HS256 "x" true)]
    perm := by decide }

/-- A store whose only secret is a primary RS256 secret with a parseable PEM key. -/
def exampleStoreRS256 : JWT :=
  storeOf [exampleSecret "r" .RS256 "" true]

theorem ParseToken_range_nil (env : Env) (token : String) :
    ParseToken_range env token [] = (.error .noMatchingSecret, []) := rfl

theorem ParseToken_range_cons_ok (env : Env) (token k : String) (s : Secret)
    (rest : GoMap Secret) (c : Claims)
    (h : env.verifyTokenSignature token (NormalizedSecret s) = .ok c) :
    ParseToken_range env token ((k, s) :: rest) =
      (.ok c, [.verifyTokenSignature token (NormalizedSecret s)]) := by
  rcases s with ⟨p, a, kid, sec, pub, priv⟩
  cases a <;> simp_all [ParseToken_range, NormalizedSecret]

theorem ParseToken_range_cons_error (env : Env) (token k : String) (s : Secret)
    (rest : GoMap Secret) (e : Error)
    (h : env.verifyTokenSignature token (NormalizedSecret s) = .error e) :
    ParseToken_range env token ((k, s) :: rest) =
      ((ParseToken_range env token rest).1,
        .verifyTokenSignature token (NormalizedSecret s) :: (ParseToken_range env token rest).2) := by
  rcases s with ⟨p, a, kid, sec, pub, priv⟩
  cases a <;> simp_all [ParseToken_range, NormalizedSecret]

theorem ParseToken_no_kid_eq (env : Env) (j : JWT) (order : RangeOrder j.staticSecrets)
    (token : String) (p : ParsedToken)
    (hparse : env.parseUnverified token = .ok p) (hkid : p.Header.get "kid" = none) :
    ParseToken env j order token = ParseToken_range env token order.entries := by
  simp [ParseToken, hparse, hkid]

theorem CreateToken_range_cons_skip (env : Env) (claims : Claims) (k : String) (s : Secret)
    (rest : GoMap Secret) (hs : s.IsPrimary = false) :
    CreateToken_range env claims ((k, s) :: rest) = CreateToken_range env claims rest := by
  simp [CreateToken_range, hs]

theorem CreateToken_range_cons_pem_error (env : Env) (claims : Claims) (k : String)
    (s : Secret) (rest : GoMap Secret) (e : String)
    (hs : s.IsPrimary = true) (ha : s.Alg = .RS256)
    (hpem : env.parseRSAPrivateKeyFromPEM s.PrivateKey = .error e) :
    CreateToken_range env claims ((k, s) :: rest) =
      (("", some (.invalidPrivateKey e)), [.parseRSAPrivateKeyFromPEM s.PrivateKey]) := by
  simp [CreateToken_range, hs, ha, hpem]

theorem CreateToken_range_cons_rsa_error (env : Env) (claims : Claims) (k : String)
    (s : Secret) (rest : GoMap Secret) (signKey : RSAPrivateKey) (e : String)
    (hs : s.IsPrimary = true) (ha : s.Alg = .RS256)
    (hpem : env.parseRSAPrivateKeyFromPEM s.PrivateKey = .ok signKey)
    (hsign : env.signedString .RS256 s.KID claims (.rsa signKey) = .error e) :
    CreateToken_range env claims ((k, s) :: rest) =
      (("", some (.signingFailed e)),
        [.parseRSAPrivateKeyFromPEM s.PrivateKey,
         .signedString .RS256 s.KID claims (.rsa signKey)]) := by
  simp [CreateToken_range, hs, ha, hpem, hsign]

theorem CreateToken_range_cons_rsa_ok (env : Env) (claims : Claims) (k : String)
    (s : Secret) (rest : GoMap Secret) (signKey : RSAPrivateKey) (tokenString : String)
    (hs : s.IsPrimary = true) (ha : s.Alg = .RS256)
    (hpem : env.parseRSAPrivateKeyFromPEM s.PrivateKey = .ok signKey)
    (hsign : env.signedString .RS256 s.KID claims (.rsa signKey) = .ok tokenString) :
    CreateToken_range env claims ((k, s) :: rest) =
      ((tokenString, none),
        [.parseRSAPrivateKeyFromPEM s.PrivateKey,
         .signedString .RS256 s.KID claims (.rsa signKey)]) := by
  simp [CreateToken_range, hs, ha, hpem, hsign]

theorem CreateToken_range_cons_hmac_error (env : Env) (claims : Claims) (k : String)
    (s : Secret) (rest : GoMap Secret) (e : String)
    (hs : s.IsPrimary = true) (ha : s.Alg = .HS256 ∨ s.Alg = .unset)
    (hsign : env.signedString .HS256 s.KID claims (.bytes s.Secret) = .error e) :
    CreateToken_range env claims ((k, s) :: rest) =
      (("", some (.signingFailed e)),
        [.signedString .HS256 s.KID claims (.bytes s.Secret)]) := by
  rcases ha with ha | ha <;> simp [CreateToken_range, hs, ha, hsign]

theorem CreateToken_range_cons_hmac_ok (env : Env) (claims : Claims) (k : String)
    (s : Secret) (rest : GoMap Secret) (tokenString : String)
    (hs : s.IsPrimary = true) (ha : s.Alg = .HS256 ∨ s.Alg = .unset)
    (hsign : env.signedString .HS256 s.KID claims (.bytes s.Secret) = .ok tokenString) :
    CreateToken_range env claims ((k, s) :: rest) =
      ((tokenString, none), [.signedString .HS256 s.KID claims (.bytes s.Secret)]) := by
  rcases ha with ha | ha <;> simp [CreateToken_range, hs, ha, hsign]

theorem CreateToken_range_cons_unsupported (env : Env) (claims : Claims) (k : String)
    (s : Secret) (rest : GoMap Secret)
    (hs : s.IsPrimary = true) (h₁ : s.Alg ≠ .RS256) (h₂ : s.Alg ≠ .HS256)
    (h₃ : s.Alg ≠ .unset) :
    CreateToken_range env claims ((k, s) :: rest) =
      (("", some (.unsupportedAlgorithm s.Alg)), []) := by
  rcases s with ⟨pr, a, kid, sec, pub, priv⟩
  cases a <;> simp_all [CreateToken_range]

theorem CreateToken_range_skip (env : Env) (claims : Claims) (pre rest : GoMap Secret)
    (hpre : ∀ kv ∈ pre, kv.2.IsPrimary = false) :
    CreateToken_range env claims (pre ++ rest) = CreateToken_range env claims rest := by
  induction pre with
  | nil => rfl
  | cons kv tl ih =>
    obtain ⟨k, s⟩ := kv
    have hs : s.IsPrimary = false := hpre (k, s) (List.mem_cons_self _ _)
    simp only [List.cons_append]
    rw [CreateToken_range_cons_skip env claims k s _ hs]
    exact ih (fun kv hkv => hpre kv (List.mem_cons_of_mem _ hkv))

theorem ParseToken_kid_found_ok (env : Env) (j : JWT) (order : RangeOrder j.staticSecrets)
    (token : String) (p : ParsedToken)
    (k : String) (e : Error) (obj : Secret) (c : Claims)
    (hparse : env.parseUnverified token = .ok p)
    (hkid : p.Header.get "kid" = some (.str k))
    (hres : env.parseJwkSecret k token = .error e)
    (hget : j.staticSecrets.get k = some obj)
    (hv : env.verifyTokenSignature token (NormalizedSecret obj) = .ok c) :
    ParseToken env j order token =
      (.ok c, [.parseJwkSecret k token,
               .verifyTokenSignature token (NormalizedSecret obj)]) := by
  rcases obj with ⟨pr, a, kid, sec, pub, priv⟩
  cases a <;> simp_all [ParseToken, NormalizedSecret]

theorem ParseToken_kid_found_error (env : Env) (j : JWT) (order : RangeOrder j.staticSecrets)
    (token : String) (p : ParsedToken)
    (k : String) (e : Error) (obj : Secret) (e' : Error)
    (hparse : env.parseUnverified token = .ok p)
    (hkid : p.Header.get "kid" = some (.str k))
    (hres : env.parseJwkSecret k token = .error e)
    (hget : j.staticSecrets.get k = some obj)
    (hv : env.verifyTokenSignature token (NormalizedSecret obj) = .error e') :
    ParseToken env j order token =
      (.error e', [.parseJwkSecret k token,
                   .verifyTokenSignature token (NormalizedSecret obj)]) := by
  rcases obj with ⟨pr, a, kid, sec, pub, priv⟩
  cases a <;> simp_all [ParseToken, NormalizedSecret]

theorem ParseToken_kid_not_string (env : Env) (j : JWT) (order : RangeOrder j.staticSecrets)
    (token : String) (p : ParsedToken)
    (v : Value)
    (hparse : env.parseUnverified token = .ok p)
    (hkid : p.Header.get "kid" = some v)
    (hv : ∀ k, v ≠ .str k) :
    ParseToken env j order token = (.runtimePanic, []) := by
  cases v with
  | str k => exact absurd rfl (hv k)
  | _ => simp [ParseToken, hparse, hkid]

theorem ParseToken_range_first_calls (env : Env) (token : String) (pre post : GoMap Secret)
    (kv : String × Secret) (c : Claims)
    (hpre : ∀ kv' ∈ pre, ∀ c', env.verifyTokenSignature token (NormalizedSecret kv'.2) ≠ .ok c')
    (hkv : env.verifyTokenSignature token (NormalizedSecret kv.2) = .ok c) :
    (ParseToken_range env token (pre ++ kv :: post)).2 =
      (pre ++ [kv]).map
        (fun kv => Call.verifyTokenSignature token (NormalizedSecret kv.2)) := by
  induction pre with
  | nil =>
    obtain ⟨k, s⟩ := kv
    simp only [List.nil_append]
    rw [ParseToken_range_cons_ok env token k s post c hkv]
    rfl
  | cons kv' rest ih =>
    obtain ⟨k', s'⟩ := kv'
    cases hv : env.verifyTokenSignature token (NormalizedSecret s') with
    | ok c' => exact absurd hv (hpre (k', s') (List.mem_cons_self _ _) c')
    | error e =>
      simp only [List.cons_append]
      rw [ParseToken_range_cons_error env token k' s' _ e hv]
      simp only [List.map_cons]
      rw [ih (fun kv'' hm c' => hpre kv'' (List.mem_cons_of_mem _ hm) c')]

theorem ParseToken_range_none_calls (env : Env) (token : String) (store : GoMap Secret)
    (h : ∀ kv ∈ store, ∀ c, env.verifyTokenSignature token (NormalizedSecret kv.2) ≠ .ok c) :
    (ParseToken_range env token store).2 =
      store.map (fun kv => Call.verifyTokenSignature token (NormalizedSecret kv.2)) := by
  induction store with
  | nil => rfl
  | cons kv rest ih =>
    obtain ⟨k, s⟩ := kv
    cases hv : env.verifyTokenSignature token (NormalizedSecret s) with
    | ok c => exact absurd hv (h (k, s) (List.mem_cons_self _ _) c)
    | error e =>
      rw [ParseToken_range_cons_error env token k s rest e hv]
      simp only [List.map_cons]
      rw [ih (fun kv hkv c => h kv (List.mem_cons_of_mem _ hkv) c)]

/-! ## Lemmas on the segments of a token -/

theorem splitDots_ne_nil (l : List Char) : splitDots l ≠ [] := by
  induction l with
  | nil => simp [splitDots]
  | cons c cs ih =>
    by_cases hc : c = '.'
    · simp [splitDots, hc]
    · cases hs : splitDots cs with
      | nil => exact absurd hs ih
      | cons seg segs => simp [splitDots, hc, hs]

theorem decNat_encNat (n : Nat) (rest : List Char) :
    decNat (encNat n ++ rest) = some (n, rest) := by
  induction n with
  | zero => simp [encNat, decNat]
  | succ n ih => simp [encNat, decNat, ih]

theorem decStr_encStr (cs : List Char) : ∀ (fuel : Nat) (rest : List Char),
    (encStr cs).length ≤ fuel → decStr fuel (encStr cs ++ rest) = some (cs, rest) := by
  induction cs with
  | nil =>
    intro fuel rest h
    cases fuel with
    | zero => simp [encStr] at h
    | succ fuel => simp [encStr, decStr]
  | cons c cs ih =>
    intro fuel rest h
    cases fuel with
    | zero => simp [encStr] at h
    | succ fuel =>
      simp only [encStr, List.length_cons, List.length_append] at h
      have h' : (encStr cs).length ≤ fuel := by omega
      simp [encStr, decStr, decNat_encNat, ih fuel rest h']

theorem encValue_length_pos (v : Value) : 0 < (encValue v).length := by
  cases v with
  | bool b => cases b <;> simp [encValue]
  | num n => cases n <;> simp [encValue]
  | _ => simp [encValue]

theorem encItems_length_pos (vs : List Value) : 0 < (encItems vs).length := by
  cases vs <;> simp [encItems]

theorem encFields_length_pos (fs : List (String × Value)) : 0 < (encFields fs).length := by
  cases fs <;> simp [encFields]

mutual
theorem decValue_encValue (v : Value) (fuel : Nat) (rest : List Char)
    (h : (encValue v).length ≤ fuel + 1) :
    decValue (fuel + 1) (encValue v ++ rest) = some (v, rest) := by
  match v with
  | .null => simp [encValue, decValue]
  | .bool true => simp [encValue, decValue]
  | .bool false => simp [encValue, decValue]
  | .num (Int.ofNat n) => simp [encValue, decValue, decNat_encNat]
  | .num (Int.negSucc n) => simp [encValue, decValue, decNat_encNat]
  | .str s =>
    simp only [encValue, List.length_cons] at h
    have h' : (encStr s.data).length ≤ fuel := by omega
    simp [encValue, decValue, decStr_encStr s.data fuel rest h']
  | .arr items =>
    simp only [encValue, List.length_cons] at h
    have hpos := encItems_length_pos items
    obtain ⟨f, rfl⟩ : ∃ f, fuel = f + 1 := ⟨fuel - 1, by omega⟩
    have h' : (encItems items).length ≤ f + 1 := by omega
    simp [encValue, decValue, decItems_encItems items f rest h']
  | .obj fields =>
    simp only [encValue, List.length_cons] at h
    have hpos := encFields_length_pos fields
    obtain ⟨f, rfl⟩ : ∃ f, fuel = f + 1 := ⟨fuel - 1, by omega⟩
    have h' : (encFields fields).length ≤ f + 1 := by omega
    simp [encValue, decValue, decFields_encFields fields f rest h']
theorem decItems_encItems (vs : List Value) (fuel : Nat) (rest : List Char)
    (h : (encItems vs).length ≤ fuel + 1) :
    decItems (fuel + 1) (encItems vs ++ rest) = some (vs, rest) := by
  match vs with
  | [] => simp [encItems, decItems]
  | v :: vs =>
    simp only [encItems, List.length_cons, List.length_append] at h
    have hv := encValue_length_pos v
    have hl := encItems_length_pos vs
    obtain ⟨f, rfl⟩ : ∃ f, fuel = f + 1 := ⟨fuel - 1, by omega⟩
    have h₁ : (encValue v).length ≤ f + 1 := by omega
    have h₂ : (encItems vs).length ≤ f + 1 := by omega
    simp [encItems, decItems, decValue_encValue v f _ h₁, decItems_encItems vs f rest h₂]
theorem decFields_encFields (fs : List (String × Value)) (fuel : Nat) (rest : List Char)
    (h : (encFields fs).length ≤ fuel + 1) :
    decFields (fuel + 1) (encFields fs ++ rest) = some (fs, rest) := by
  match fs with
  | [] => simp [encFields, decFields]
  | (k, v) :: fs =>
    simp only [encFields, List.length_cons, List.length_append] at h
    have hv := encValue_length_pos v
    have hl := encFields_length_pos fs
    obtain ⟨f, rfl⟩ : ∃ f, fuel = f + 1 := ⟨fuel - 1, by omega⟩
    have h₀ : (encStr k.data).length ≤ f + 1 := by omega
    have h₁ : (encValue v).length ≤ f + 1 := by omega
    have h₂ : (encFields fs).length ≤ f + 1 := by omega
    simp [encFields, decFields, decStr_encStr k.data (f + 1) _ h₀,
      decValue_encValue v f _ h₁, decFields_encFields fs f rest h₂]
end

theorem encNat_no_dot (n : Nat) : '.' ∉ encNat n := by
  induction n with
  | zero => simp [encNat]
  | succ n ih => simp [encNat, ih]

theorem encStr_no_dot (cs : List Char) : '.' ∉ encStr cs := by
  induction cs with
  | nil => simp [encStr]
  | cons c cs ih => simp [encStr, encNat_no_dot, ih]

mutual
theorem encValue_no_dot (v : Value) : '.' ∉ encValue v := by
  match v with
  | .null => simp [encValue]
  | .bool true => simp [encValue]
  | .bool false => simp [encValue]
  | .num (Int.ofNat n) => simp [encValue, encNat_no_dot]
  | .num (Int.negSucc n) => simp [encValue, encNat_no_dot]
  | .str s => simp [encValue, encStr_no_dot]
  | .arr items => simp [encValue, encItems_no_dot items]
  | .obj fields => simp [encValue, encFields_no_dot fields]
theorem encItems_no_dot (vs : List Value) : '.' ∉ encItems vs := by
  match vs with
  | [] => simp [encItems]
  | v :: vs => simp [encItems, encValue_no_dot v, encItems_no_dot vs]
theorem encFields_no_dot (fs : List (String × Value)) : '.' ∉ encFields fs := by
  match fs with
  | [] => simp [encFields]
  | (k, v) :: fs =>
    simp [encFields, encStr_no_dot, encValue_no_dot v, encFields_no_dot fs]
end

/-- C2: when the header carries a kid and the key-set resolver, called with that kid and the
raw token, reports success, ParseToken returns the resolver's claims whatever the static
store holds; the resolver is the only collaborator called. -/
theorem ParseToken_resolver_first (env : Env) (j : JWT) (order : RangeOrder j.staticSecrets)
    (token : String) (p : ParsedToken) (k : String) (c : Claims)
    (hparse : env.parseUnverified token = .ok p)
    (hkid : p.Header.get "kid" = some (.str k))
    (hres : env.parseJwkSecret k token = .ok c) :
    ParseToken env j order token = (.ok c, [.parseJwkSecret k token]) := by
  simp [ParseToken, hparse, hkid, hres]

/-- C3: when the header carries the kid k and the key-set resolver fails, the result is
fixed by the store entry for k alone. With a secret under k, ParseToken returns what
verification against that secret, normalised, returns (claims, or the engine's failure),
and that is the only verification attempted. With no secret under k, it fails with
UnknownKeyIdentifier and attempts no verification, whatever the other secrets are. -/
theorem ParseToken_kid_lookup (env : Env) (j : JWT) (order : RangeOrder j.staticSecrets)
    (token : String) (p : ParsedToken) (k : String) (e : Error)
    (hparse : env.parseUnverified token = .ok p)
    (hkid : p.Header.get "kid" = some (.str k))
    (hres : env.parseJwkSecret k token = .error e) :
    (∀ obj, j.staticSecrets.get k = some obj →
      (∀ c, env.verifyTokenSignature token (NormalizedSecret obj) = .ok c →
        ParseToken env j order token =
          (.ok c, [.parseJwkSecret k token,
                   .verifyTokenSignature token (NormalizedSecret obj)])) ∧
      (∀ e', env.verifyTokenSignature token (NormalizedSecret obj) = .error e' →
        ParseToken env j order token =
          (.error e', [.parseJwkSecret k token,
                       .verifyTokenSignature token (NormalizedSecret obj)]))) ∧
    (j.staticSecrets.get k = none →
      ParseToken env j order token =
        (.error .unknownKeyIdentifier, [.parseJwkSecret k token])) := by
  constructor
  · intro obj hget
    constructor
    · intro c hv
      exact ParseToken_kid_found_ok env j order token p k e obj c hparse hkid hres hget hv
    · intro e' hv
      exact ParseToken_kid_found_error env j order token p k e obj e' hparse hkid hres hget hv
  · intro hget
    simp [ParseToken, hparse, hkid, hres, hget]

/-- C8: in both verification paths the secret handed to signature verification is the stored
secret with only its algorithm rewritten (unset to HS256, RS256Public to RS256, any other tag
unchanged). With a kid, the one verification call is made on the normalised secret stored
under the kid. Without a kid, the verification calls are made on the normalised secrets in the
order of the range, up to and including the first that verifies, and on all of them when none
verifies. A secret tagged RS256Public is therefore handed on as RS256, never as HS256. -/
theorem ParseToken_hands_normalised_secret (env : Env) (j : JWT)
    (order : RangeOrder j.staticSecrets) (token : String)
    (p : ParsedToken) (hparse : env.parseUnverified token = .ok p) :
    (∀ k e obj, p.Header.get "kid" = some (.str k) →
        env.parseJwkSecret k token = .error e →
        j.staticSecrets.get k = some obj →
        (ParseToken env j order token).2 =
          [.parseJwkSecret k token, .verifyTokenSignature token (NormalizedSecret obj)]) ∧
    (p.Header.get "kid" = none →
        (∀ (pre post : GoMap Secret) (kv : String × Secret) (c : Claims),
          order.entries = pre ++ kv :: post →
          (∀ kv' ∈ pre, ∀ c',
            env.verifyTokenSignature token (NormalizedSecret kv'.2) ≠ .ok c') →
          env.verifyTokenSignature token (NormalizedSecret kv.2) = .ok c →
          (ParseToken env j order token).2 =
            (pre ++ [kv]).map
              (fun kv => Call.verifyTokenSignature token (NormalizedSecret kv.2))) ∧
        ((∀ kv ∈ order.entries, ∀ c,
            env.verifyTokenSignature token (NormalizedSecret kv.2) ≠ .ok c) →
          (ParseToken env j order token).2 =
            order.entries.map
              (fun kv => Call.verifyTokenSignature token (NormalizedSecret kv.2)))) ∧
    (∀ s : Secret,
        (NormalizedSecret s).IsPrimary = s.IsPrimary ∧
        (NormalizedSecret s).KID = s.KID ∧
        (NormalizedSecret s).Secret = s.Secret ∧
        (NormalizedSecret s).PublicKey = s.PublicKey ∧
        (NormalizedSecret s).PrivateKey = s.PrivateKey ∧
        (s.Alg = .unset → (NormalizedSecret s).Alg = .HS256) ∧
        (s.Alg = .RS256Public → (NormalizedSecret s).Alg = .RS256) ∧
        (s.Alg ≠ .unset → s.Alg ≠ .RS256Public → (NormalizedSecret s).Alg = s.Alg)) := by
  refine ⟨?_, ?_, ?_⟩
  · intro k e obj hkid hres hget
    cases hv : env.verifyTokenSignature token (NormalizedSecret obj) with
    | ok c =>
      rw [ParseToken_kid_found_ok env j order token p k e obj c hparse hkid hres hget hv]
    | error e' =>
      rw [ParseToken_kid_found_error env j order token p k e obj e' hparse hkid hres hget hv]
  · intro hkid
    rw [ParseToken_no_kid_eq env j order token p hparse hkid]
    constructor
    · intro pre post kv c hstore hpre hkv
      rw [hstore]
      exact ParseToken_range_first_calls env token pre post kv c hpre hkv
    · intro hnone
      exact ParseToken_range_none_calls env token order.entries hnone
  · intro s
    rcases s with ⟨pr, a, kid, sec, pub, priv⟩
    cases a <;> simp [NormalizedSecret]

/-- C10, at a failing input: for a token whose header holds the number 7 under kid,
ParseToken ends in a run-time panic, whatever the store. -/
theorem ParseToken_numeric_kid_panics (j : JWT) (order : RangeOrder j.staticSecrets) :
    ParseToken exampleEnv j order tokenNumericKid = (.runtimePanic, []) := by
  rfl

/-! ## Claims on CreateToken -/

/-- C6: CreateToken returns the empty string and NoPrimarySecret for every store without a
primary secret, the empty store included; and it returns the empty string and
UnsupportedAlgorithm when the first primary secret the range visits has a tag other than
RS256, HS256 and unset, such as RS256Public. No collaborator is called in either case. -/
theorem CreateToken_cannot_sign (env : Env) (j : JWT) (order : RangeOrder j.staticSecrets)
    (tokenClaims : Claims) (now : Int) :
    ((∀ kv ∈ j.staticSecrets, kv.2.IsPrimary = false) →
        CreateToken env j order tokenClaims now = (("", some .noPrimarySecret), [])) ∧
    (∀ (pre post : GoMap Secret) (k : String) (s : Secret),
        order.entries = pre ++ (k, s) :: post →
        (∀ kv ∈ pre, kv.2.IsPrimary = false) →
        s.IsPrimary = true →
        s.Alg ≠ .RS256 → s.Alg ≠ .HS256 → s.Alg ≠ .unset →
        CreateToken env j order tokenClaims now
          = (("", some (.unsupportedAlgorithm s.Alg)), [])) := by
  constructor
  · intro hnone
    have h := CreateToken_range_skip env (CreateToken_claims tokenClaims now)
      order.entries [] (fun kv hkv => hnone kv (order.perm.mem_iff.mp hkv))
    rw [List.append_nil] at h
    rw [CreateToken, h]
    rfl
  · intro pre post k s hstore hpre hs h₁ h₂ h₃
    rw [CreateToken, hstore, CreateToken_range_skip env _ pre _ hpre]
    exact CreateToken_range_cons_unsupported env _ k s post hs h₁ h₂ h₃

/-- C9, amended: CreateToken signs with the first secret marked primary in the order in which
the range of this call visits the secrets, an order the store does not fix, and branches on
that secret's algorithm alone. For RS256 it parses the PEM private key, fails with
InvalidPrivateKey when that fails, and otherwise returns the token of the RSA-SHA256 signer
for the parsed key, or the signer's failure. For HS256 or unset it returns the token of the
HMAC-SHA256 signer for the raw secret bytes, or the signer's failure. The kid given to the
signer for the header is the kid of that secret, and the secrets visited after it do not
influence the result. -/
theorem CreateToken_signs_with_first_primary (env : Env) (j : JWT)
    (order : RangeOrder j.staticSecrets) (tokenClaims : Claims)
    (now : Int) (pre post : GoMap Secret) (k : String) (s : Secret)
    (hstore : order.entries = pre ++ (k, s) :: post)
    (hpre : ∀ kv ∈ pre, kv.2.IsPrimary = false)
    (hs : s.IsPrimary = true) :
    (s.Alg = .RS256 →
      (∀ e, env.parseRSAPrivateKeyFromPEM s.PrivateKey = .error e →
        CreateToken env j order tokenClaims now =
          (("", some (.invalidPrivateKey e)), [.parseRSAPrivateKeyFromPEM s.PrivateKey])) ∧
      (∀ signKey tokenString, env.parseRSAPrivateKeyFromPEM s.PrivateKey = .ok signKey →
        env.signedString .RS256 s.KID (CreateToken_claims tokenClaims now) (.rsa signKey)
          = .ok tokenString →
        CreateToken env j order tokenClaims now =
          ((tokenString, none),
            [.parseRSAPrivateKeyFromPEM s.PrivateKey,
             .signedString .RS256 s.KID (CreateToken_claims tokenClaims now)
               (.rsa signKey)])) ∧
      (∀ signKey e, env.parseRSAPrivateKeyFromPEM s.PrivateKey = .ok signKey →
        env.signedString .RS256 s.KID (CreateToken_claims tokenClaims now) (.rsa signKey)
          = .error e →
        CreateToken env j order tokenClaims now =
          (("", some (.signingFailed e)),
            [.parseRSAPrivateKeyFromPEM s.PrivateKey,
             .signedString .RS256 s.KID (CreateToken_claims tokenClaims now)
               (.rsa signKey)]))) ∧
    (s.Alg = .HS256 ∨ s.Alg = .unset →
      (∀ tokenString,
        env.signedString .HS256 s.KID (CreateToken_claims tokenClaims now) (.bytes s.Secret)
          = .ok tokenString →
        CreateToken env j order tokenClaims now =
          ((tokenString, none),
            [.signedString .HS256 s.KID (CreateToken_claims tokenClaims now)
               (.bytes s.Secret)])) ∧
      (∀ e,
        env.signedString .HS256 s.KID (CreateToken_claims tokenClaims now) (.bytes s.Secret)
          = .error e →
        CreateToken env j order tokenClaims now =
          (("", some (.signingFailed e)),
            [.signedString .HS256 s.KID (CreateToken_claims tokenClaims now)
               (.bytes s.Secret)]))) ∧
    (∀ (j' : JWT) (order' : RangeOrder j'.staticSecrets) (post' : GoMap Secret),
      order'.entries = pre ++ (k, s) :: post' →
      CreateToken env j' order' tokenClaims now = CreateToken env j order tokenClaims now) := by
  have hj : CreateToken env j order tokenClaims now =
      CreateToken_range env (CreateToken_claims tokenClaims now) ((k, s) :: post) := by
    rw [CreateToken, hstore, CreateToken_range_skip env _ pre _ hpre]
  refine ⟨?_, ?_, ?_⟩
  · intro ha
    refine ⟨?_, ?_, ?_⟩
    · intro e hpem
      rw [hj]
      exact CreateToken_range_cons_pem_error env _ k s post e hs ha hpem
    · intro signKey tokenString hpem hsign
      rw [hj]
      exact CreateToken_range_cons_rsa_ok env _ k s post signKey tokenString hs ha hpem hsign
    · intro signKey e hpem hsign
      rw [hj]
      exact CreateToken_range_cons_rsa_error env _ k s post signKey e hs ha hpem hsign
  · intro ha
    refine ⟨?_, ?_⟩
    · intro tokenString hsign
      rw [hj]
      exact CreateToken_range_cons_hmac_ok env _ k s post tokenString hs ha hsign
    · intro e hsign
      rw [hj]
      exact CreateToken_range_cons_hmac_error env _ k s post e hs ha hsign
  · intro j' order' post' hstore'
    rw [hj, CreateToken, hstore', CreateToken_range_skip env _ pre _ hpre]
    cases hpem : env.parseRSAPrivateKeyFromPEM s.PrivateKey <;>
      rcases s with ⟨pr, a, kid, sec, pub, priv⟩ <;>
      cases a <;> simp_all [CreateToken_range]

/-! ## Round trip -/

/-- The engine of the specification rejects a token whose third segment is not the signature
recomputed under the given HS256 secret. -/
theorem specVerifyTokenSignature_rejects (prims : Primitives) (token header payload
    signature : String) (secret : Secret) (claims : Claims)
    (hseg : segments token = [header, payload, signature])
    (hdec : prims.decodeObject payload = some claims)
    (halg : secret.Alg = .HS256)
    (hne : prims.hmacSHA256 secret.Secret (header ++ "." ++ payload) ≠ signature) :
    specVerifyTokenSignature prims token secret = .error (.engine "signature is invalid") := by
  simp [specVerifyTokenSignature, hseg, hdec, halg, hne]

/-! ## The claims at concrete inputs -/

/-- C2 at a concrete input: the resolver resolves "k1", and ParseToken returns its claims
although the store holds no secret under "k1". -/
theorem ParseToken_resolver_first_witness :
    exampleEnvResolving.parseJwkSecret "k1" tokenKid = .ok [("sub", .str "remote")] ∧
    ParseToken exampleEnvResolving exampleStore (RangeOrder.listed _) tokenKid =
      (.ok [("sub", .str "remote")], [.parseJwkSecret "k1" tokenKid]) :=
  ⟨rfl,
   ParseToken_resolver_first exampleEnvResolving exampleStore (RangeOrder.listed _) tokenKid
     { Header := [("alg", .str "HS256"), ("kid", .str "k1"), ("typ", .str "JWT")] }
     "k1" [("sub", .str "remote")] rfl rfl rfl⟩

/-- C3 at a concrete input: the resolver fails and the store has no secret under "k1";
ParseToken fails with UnknownKeyIdentifier although two stored secrets verify the token. -/
theorem ParseToken_kid_lookup_witness :
    GoMap.get exampleStore.staticSecrets "k1" = none ∧
    ParseToken exampleEnv exampleStore (RangeOrder.listed _) tokenKid =
      (.error .unknownKeyIdentifier, [.parseJwkSecret "k1" tokenKid]) :=
  ⟨rfl,
   (ParseToken_kid_lookup exampleEnv exampleStore (RangeOrder.listed _) tokenKid
     { Header := [("alg", .str "HS256"), ("kid", .str "k1"), ("typ", .str "JWT")] }
     "k1" .keySetResolutionFailed rfl rfl rfl).2 rfl⟩

/-- C8 at concrete inputs. With kid "k1" in the header, the secret stored under "k1", tagged
RS256Public, is handed on tagged RS256. Without a kid and with the range visiting "a", "b", "c", the
secrets "a" and "b" of the example store are handed on, both tagged HS256, and "c" is not
reached. -/
theorem ParseToken_hands_normalised_secret_witness :
    (ParseToken exampleEnv (storeOf [exampleSecret "k1" .RS256Public "" false])
        (RangeOrder.listed _) tokenKid).2 =
      [.parseJwkSecret "k1" tokenKid,
       .verifyTokenSignature tokenKid
          { IsPrimary := false, Alg := .RS256, KID := "k1", Secret := "",
            PublicKey := "", PrivateKey := "PEM" }] ∧
    (ParseToken exampleEnv exampleStore (RangeOrder.listed _) tokenNoKid).2 =
      [.verifyTokenSignature tokenNoKid
          { IsPrimary := false, Alg := .HS256, KID := "a", Secret := "other",
            PublicKey := "", PrivateKey := "PEM" },
       .verifyTokenSignature tokenNoKid
          { IsPrimary := false, Alg := .HS256, KID := "b", Secret := "s3cret",
            PublicKey := "", PrivateKey := "PEM" }] :=
  ⟨(ParseToken_hands_normalised_secret exampleEnv
      (storeOf [exampleSecret "k1" .RS256Public "" false]) (RangeOrder.listed _) tokenKid
      { Header := [("alg", .str "HS256"), ("kid", .str "k1"), ("typ", .str "JWT")] } rfl).1
      "k1" .keySetResolutionFailed (exampleSecret "k1" .RS256Public "" false) rfl rfl rfl,
   ((ParseToken_hands_normalised_secret exampleEnv exampleStore (RangeOrder.listed _)
      tokenNoKid { Header := [("alg", .str "HS256"), ("typ", .str "JWT")] } rfl).2.1 rfl).1
      [("a", exampleSecret "a" .unset "other" false)]
      [("c", exampleSecret "c" .HS256 "s3cret" true)]
      ("b", exampleSecret "b" .unset "s3cret" false)
      [("sub", .str "b")] rfl
      (by
        intro kv hkv c hc
        simp only [List.mem_singleton] at hkv
        subst hkv
        simp [exampleEnv, exampleSecret, NormalizedSecret] at hc)
      rfl⟩

/-- C6 at a concrete input: the first primary secret the range visits is tagged RS256Public
and CreateToken fails with UnsupportedAlgorithm and an empty token. -/
theorem CreateToken_cannot_sign_witness :
    CreateToken exampleEnv
        (storeOf [exampleSecret "a" .HS256 "x" false, exampleSecret "b" .RS256Public "" true])
        (RangeOrder.listed _) [("sub", .str "u1")] 0 =
      (("", some (.unsupportedAlgorithm .RS256Public)), []) :=
  (CreateToken_cannot_sign exampleEnv
      (storeOf [exampleSecret "a" .HS256 "x" false, exampleSecret "b" .RS256Public "" true])
      (RangeOrder.listed _) [("sub", .str "u1")] 0).2
    [("a", exampleSecret "a" .HS256 "x" false)] [] "b" (exampleSecret "b" .RS256Public "" true)
    rfl
    (by
      intro kv hkv
      simp only [List.mem_singleton] at hkv
      subst hkv
      rfl)
    rfl (by decide) (by decide) (by decide)

/-- C9 at a concrete input: in the store with two primary secrets the range visits "b" first;
the token is the signer's and the signer is given the kid "b" and the secret bytes of "b". -/
theorem CreateToken_signs_with_first_primary_witness :
    CreateToken exampleEnv exampleTwoPrimaries exampleOrderBA [("sub", .str "u1")] 0 =
      (("signed:b", none),
        [.signedString .HS256 "b" (CreateToken_claims [("sub", .str "u1")] 0)
          (.bytes "y")]) :=
  ((CreateToken_signs_with_first_primary exampleEnv exampleTwoPrimaries exampleOrderBA
      [("sub", .str "u1")] 0 [] [("a", exampleSecret "a" .HS256 "x" true)]
      "b" (exampleSecret "b" .HS256 "y" true) rfl
      (by
        intro kv hkv
        simp at hkv)
      rfl).2.1 (Or.inl rfl)).1 "signed:b" rfl

/-- C9 as stated fails twice. The store with the two primary secrets was filled with "a"
first, yet when the range visits "b" first CreateToken signs with "b" and puts the kid "b" in
the header. And with an RS256 primary secret whose PEM key
parses, CreateToken returns no token when the signer fails: it returns the signer's failure. -/
theorem CreateToken_signs_with_first_primary_counterexample :
    (exampleTwoPrimaries.staticSecrets =
        [] ++ ("a", exampleSecret "a" .HS256 "x" true) ::
          [("b", exampleSecret "b" .HS256 "y" true)] ∧
      (exampleSecret "a" .HS256 "x" true).IsPrimary = true ∧
      CreateToken exampleEnv exampleTwoPrimaries exampleOrderBA [] 0 =
        (("signed:b", none),
          [.signedString .HS256 "b" (CreateToken_claims [] 0) (.bytes "y")])) ∧
    (exampleEnvSignerFails.parseRSAPrivateKeyFromPEM
        (exampleSecret "r" .RS256 "" true).PrivateKey = .ok { der := "DER" } ∧
      CreateToken exampleEnvSignerFails exampleStoreRS256 (RangeOrder.listed _) [] 0 =
        (("", some (.signingFailed "crypto/rsa: message too long for RSA key size")),
          [.parseRSAPrivateKeyFromPEM "PEM",
           .signedString .RS256 "r" (CreateToken_claims [] 0) (.rsa { der := "DER" })])) :=
  ⟨⟨rfl, rfl, rfl⟩, rfl, rfl⟩

end Jwt
